import Mathlib

/-!
Verification development for fleet_live_tracker.py.

The script is a linear pipeline: browser geolocation, Excel upload, a check
that the table has a "vehicleId" column, de-duplication of the identifier
column into VIN_LIST, one HTTP fetch per VIN (parsed into a record or
discarded on any failure by a bare except), an empty-result check, a derived
distance column, an ascending sort on that column, truncation to 30 rows,
and rendering.

Modelling conventions:
- An HTTP interaction is a `FetchResponse`: either a raised network error
  (timeout / connection failure of requests.get) or a status code with an
  optional parsed JSON body (`none` models a body that response.json()
  rejects).  A JSON body is modelled by the three fields fetch_live reads;
  `location = none` covers both a missing "location" key (KeyError) and a
  non-string value (AttributeError on .split) since both are swallowed by
  the bare except.
- Python's float() builtin is external; fetch-level definitions are
  parameterised by a parser `pf : String → Option ℚ` (`none` = ValueError).
  `pyFloat` below is a concrete executable model of float() on plain
  decimal literals, used to instantiate `pf` on concrete inputs.
- geopy's geodesic(...).km is external and is passed as an abstract
  function `dist : ℚ × ℚ → ℚ × ℚ → ℚ` of the two coordinate pairs.
- pandas sort_values on the distance column is embedded as a comparison
  sort producing an ascending permutation (List.insertionSort).  Note that
  the script calls sort_values with the default kind, which pandas does not
  document as stable; properties that depend only on "sorted permutation"
  are proved here, while tie-order properties are outside what the source
  guarantees (see the development notes on the sort below).
-/

/-- Model of Python's `str.split(",")` on a list of characters: split at
every comma, keeping empty segments. -/
def splitCommaChars : List Char → List Char → List (List Char)
  | [], acc => [acc.reverse]
  | c :: cs, acc =>
    if c = ',' then acc.reverse :: splitCommaChars cs []
    else splitCommaChars cs (c :: acc)

/-- Model of Python's `str.split(",")`: `"a,b"` ↦ `["a", "b"]`, `""` ↦ `[""]`,
`"a,"` ↦ `["a", ""]`. -/
def splitComma (s : String) : List String :=
  (splitCommaChars s.toList []).map fun l => String.mk l

/-- Numeric value of a decimal digit character. -/
def digToNat (c : Char) : Nat := c.toNat - 48

/-- Value of a digit string read in base 10. -/
def natOfDigits (l : List Char) : Nat :=
  l.foldl (fun a c => 10 * a + digToNat c) 0

/-- Magnitude part of a decimal literal as a (numerator, denominator) pair
of naturals: digits with an optional single decimal point, at least one
digit overall. -/
def pyFloatParts (l : List Char) : Option (Nat × Nat) :=
  match l.span fun c => c ≠ '.' with
  | (intPart, []) =>
    if intPart ≠ [] ∧ intPart.all Char.isDigit then some (natOfDigits intPart, 1)
    else none
  | (intPart, _ :: fracPart) =>
    if (intPart ≠ [] ∨ fracPart ≠ []) ∧ intPart.all Char.isDigit ∧ fracPart.all Char.isDigit then
      some (natOfDigits intPart * 10 ^ fracPart.length + natOfDigits fracPart,
        10 ^ fracPart.length)
    else none

/-- Executable model of Python's `float()` on plain decimal literals
(optional sign, digits, optional fractional part); scientific notation,
inf/nan and surrounding whitespace are not modelled.  Used only to
instantiate the abstract parser parameter on concrete inputs. -/
def pyFloat (s : String) : Option ℚ :=
  match s.toList with
  | '-' :: rest => (pyFloatParts rest).map fun p => Rat.divInt (-(p.1 : Int)) p.2
  | '+' :: rest => (pyFloatParts rest).map fun p => Rat.divInt p.1 p.2
  | l => (pyFloatParts l).map fun p => Rat.divInt p.1 p.2

/-- The JSON fields of a track response that fetch_live reads:
`data["location"]` (a string, `none` when absent or not a string),
`data.get("batteryCharge")` and `data.get("lastUpdated")` (passthrough,
possibly absent). -/
structure JsonBody where
  location : Option String
  batteryCharge : Option ℚ
  lastUpdated : Option String
deriving DecidableEq

/-- Outcome of `requests.get` for one VIN: a raised error (timeout or
connection failure), or a response with a status code and an optional
parsed JSON body (`none` = `response.json()` raises). -/
inductive FetchResponse where
  | netError : FetchResponse
  | ok (statusCode : Nat) (body : Option JsonBody) : FetchResponse
deriving DecidableEq

/-- The record dict built by fetch_live on success: VIN, Latitude,
Longitude, Battery (passthrough, may be None), Last Updated (passthrough,
may be None). -/
structure VehicleRecord where
  VIN : String
  Latitude : ℚ
  Longitude : ℚ
  Battery : Option ℚ
  LastUpdated : Option String
deriving DecidableEq

/-- Embedding of `fetch_live(vin)` (lines 62-93): returns None unless the
request succeeds with status code exactly 200, the body is valid JSON, the
"location" string splits on commas into exactly two parts and both parts
parse as floats; every failure mode is swallowed by the bare `except` and
yields None. -/
def fetch_live (pf : String → Option ℚ) (vin : String) (resp : FetchResponse) :
    Option VehicleRecord :=
  match resp with
  | .netError => none
  | .ok statusCode body =>
    if statusCode ≠ 200 then none
    else
      match body with
      | none => none
      | some data =>
        match data.location with
        | none => none
        | some locStr =>
          match splitComma locStr with
          | [s1, s2] =>
            match pf s1, pf s2 with
            | some lat, some lon =>
              some ⟨vin, lat, lon, data.batteryCharge, data.lastUpdated⟩
            | _, _ => none
          | _ => none

/-- First-occurrence de-duplication over a set of already-seen values. -/
def uniqueKeepFirstAux : List String → List String → List String
  | [], _ => []
  | x :: xs, seen =>
    if x ∈ seen then uniqueKeepFirstAux xs seen
    else x :: uniqueKeepFirstAux xs (x :: seen)

/-- First-occurrence de-duplication, the order `pandas.Series.unique`
uses. -/
def uniqueKeepFirst (l : List String) : List String :=
  uniqueKeepFirstAux l []

/-- Embedding of `VIN_LIST = df["vehicleId"].dropna().unique().tolist()`
(line 55): the column is a list of optional cells; nulls are dropped and
duplicates collapsed keeping first occurrences. -/
def VIN_LIST (col : List (Option String)) : List String :=
  uniqueKeepFirst (col.filterMap id)

/-- Embedding of the result accumulation (lines 104-125): each VIN's future
yields `fetch_live` of its response, and only non-None results are
appended.  The script appends in completion order; the claims proved below
do not depend on that order, so submission order is used. -/
def collectResults (pf : String → Option ℚ) (vins : List String)
    (respOf : String → FetchResponse) : List VehicleRecord :=
  vins.filterMap fun v => fetch_live pf v (respOf v)

/-- A VehicleRecord together with its derived "Distance (km)" column. -/
structure RankedRecord where
  record : VehicleRecord
  distKm : ℚ
deriving DecidableEq

/-- The derived distance column (lines 141-153): geodesic distance from the
user's location to the record's coordinates; geopy's geodesic(...).km is
external, passed as the abstract function `dist`. -/
def withDistance (dist : ℚ × ℚ → ℚ × ℚ → ℚ) (user : ℚ × ℚ) (r : VehicleRecord) :
    RankedRecord :=
  ⟨r, dist user (r.Latitude, r.Longitude)⟩

/-- The comparison the sort uses: ascending by the distance column. -/
def byDistance (a b : RankedRecord) : Prop := a.distKm ≤ b.distKm

instance : DecidableRel byDistance :=
  fun a b => inferInstanceAs (Decidable (a.distKm ≤ b.distKm))

instance : IsTotal RankedRecord byDistance :=
  ⟨fun a b => le_total a.distKm b.distKm⟩

instance : IsTrans RankedRecord byDistance :=
  ⟨fun _ _ _ h1 h2 => le_trans h1 h2⟩

/-- Embedding of the Ranker (lines 141-159): add the distance column, sort
ascending on it, take the first 30 rows.  `sort_values` is embedded as a
comparison sort returning an ascending permutation of its input
(List.insertionSort); the script calls sort_values with its default
algorithm, which pandas does not document as stable, so no claim settled
below relies on the tie order this embedding happens to produce. -/
def rank (dist : ℚ × ℚ → ℚ × ℚ → ℚ) (user : ℚ × ℚ) (records : List VehicleRecord) :
    List RankedRecord :=
  ((records.map (withDistance dist user)).insertionSort byDistance).take 30

/-- The observable terminal state of one script run: stopped at the
geolocation prompt (line 28), waiting for a file (line 45), stopped on the
missing-column error (line 53), stopped on the "No live data received."
error (line 131), or rendered (table and map both display TOP). -/
inductive Outcome where
  | locationPrompt : Outcome
  | awaitFile : Outcome
  | inputError : Outcome
  | emptyResultSet : Outcome
  | rendered (top : List RankedRecord) : Outcome
deriving DecidableEq

/-- An uploaded table as read by pd.read_excel: its column names together
with the cell data of each column (cells may be null). -/
structure InputTable where
  cols : List String
  data : String → List (Option String)

/-- Result of one run: its terminal outcome plus the identifiers for which
a network request was dispatched (one executor.submit per VIN_LIST entry,
lines 109-115). -/
structure RunResult where
  outcome : Outcome
  requests : List String

/-- Embedding of the whole script in source order: stop if geolocation is
unavailable (lines 23-28); stop if no file was uploaded (lines 40-45);
stop with the column error if "vehicleId" is absent (lines 50-53);
otherwise dispatch one fetch per VIN_LIST entry (lines 55, 109-125), stop
with the empty-result error if no record was received (lines 128-131),
else rank and render (lines 134-224). -/
def runPipeline (pf : String → Option ℚ) (dist : ℚ × ℚ → ℚ × ℚ → ℚ)
    (loc : Option (ℚ × ℚ)) (file : Option InputTable)
    (respOf : String → FetchResponse) : RunResult :=
  match loc with
  | none => ⟨.locationPrompt, []⟩
  | some user =>
    match file with
    | none => ⟨.awaitFile, []⟩
    | some tbl =>
      if "vehicleId" ∈ tbl.cols then
        let vins := VIN_LIST (tbl.data "vehicleId")
        let results := collectResults pf vins respOf
        if results = [] then ⟨.emptyResultSet, vins⟩
        else ⟨.rendered (rank dist user results), vins⟩
      else ⟨.inputError, []⟩


/-- The response carries a status code outside the 2xx class. -/
def non2xxStatus : FetchResponse → Bool
  | .netError => false
  | .ok s _ => decide (s < 200) || decide (300 ≤ s)

/-- The response body is not valid JSON (response.json() raises). -/
def malformedJsonBody : FetchResponse → Bool
  | .ok _ none => true
  | _ => false

/-- The response has a location string with a component the float parser
rejects. -/
def nonNumericLocation (pf : String → Option ℚ) : FetchResponse → Bool
  | .ok _ (some d) =>
    match d.location with
    | some locStr => (splitComma locStr).any fun c => (pf c).isNone
    | none => false
  | _ => false

/-! ### Sanity checks of the embedding on concrete values -/

example : splitComma "12.90,77.60" = ["12.90", "77.60"] := by decide
example : splitComma "" = [""] := by decide
example : splitComma "a," = ["a", ""] := by decide
example : pyFloat "12.90" = some (Rat.divInt 1290 100) := by decide
example : pyFloat "1.5" = some (Rat.divInt 3 2) := by decide
example : pyFloat "-2" = some (Rat.divInt (-2) 1) := by decide
example : pyFloat "abc" = none := by decide
example : pyFloat "" = none := by decide
example : VIN_LIST [some "V1", none, some "V2", some "V1"] = ["V1", "V2"] := by decide
example :
    fetch_live pyFloat "V1" (.ok 200 (some ⟨some "1.5,2.5", some 80, none⟩)) =
      some ⟨"V1", Rat.divInt 3 2, Rat.divInt 5 2, some 80, none⟩ := by decide
example : fetch_live pyFloat "V1" (.ok 201 (some ⟨some "1.5,2.5", none, none⟩)) = none := by
  decide
example : fetch_live pyFloat "V1" (.ok 200 (some ⟨some "1.5,2.5,3.5", none, none⟩)) = none := by
  decide

/-! ### Helper lemmas -/

theorem mem_uniqueKeepFirstAux {a : String} {l : List String} :
    ∀ {seen : List String}, a ∈ uniqueKeepFirstAux l seen ↔ a ∈ l ∧ a ∉ seen := by
  induction l with
  | nil => intro seen; simp [uniqueKeepFirstAux]
  | cons x xs ih =>
    intro seen
    by_cases hx : x ∈ seen
    · rw [uniqueKeepFirstAux, if_pos hx, ih, List.mem_cons]
      constructor
      · rintro ⟨h1, h2⟩
        exact ⟨Or.inr h1, h2⟩
      · rintro ⟨h1 | h1, h2⟩
        · subst h1; exact absurd hx h2
        · exact ⟨h1, h2⟩
    · rw [uniqueKeepFirstAux, if_neg hx, List.mem_cons, List.mem_cons]
      constructor
      · rintro (rfl | h)
        · exact ⟨Or.inl rfl, hx⟩
        · obtain ⟨h1, h2⟩ := ih.mp h
          refine ⟨Or.inr h1, fun hs => h2 (List.mem_cons.mpr (Or.inr hs))⟩
      · rintro ⟨h1 | h1, h2⟩
        · subst h1; exact Or.inl rfl
        · by_cases hax : a = x
          · exact Or.inl hax
          · refine Or.inr (ih.mpr ⟨h1, fun hs => ?_⟩)
            rcases List.mem_cons.mp hs with h3 | h3
            · exact hax h3
            · exact h2 h3

theorem nodup_uniqueKeepFirstAux (l : List String) :
    ∀ seen : List String, (uniqueKeepFirstAux l seen).Nodup := by
  induction l with
  | nil => intro seen; simp [uniqueKeepFirstAux]
  | cons x xs ih =>
    intro seen
    rw [uniqueKeepFirstAux]
    split
    · exact ih seen
    · refine List.nodup_cons.mpr ⟨fun hmem => ?_, ih (x :: seen)⟩
      exact (mem_uniqueKeepFirstAux.mp hmem).2 (List.mem_cons_self x seen)

theorem nodup_VIN_LIST (col : List (Option String)) : (VIN_LIST col).Nodup :=
  nodup_uniqueKeepFirstAux _ []

theorem mem_VIN_LIST {x : String} {col : List (Option String)} :
    x ∈ VIN_LIST col ↔ some x ∈ col := by
  rw [VIN_LIST, uniqueKeepFirst, mem_uniqueKeepFirstAux]
  simp [List.mem_filterMap]

/-! ### Claims -/

/-- Claim C1: for every list of successful records and every user location,
the Ranker's output is sorted non-decreasing by the distance column, and
its length equals min(30, number of successful records); with fewer than
30 records it truncates to the available count. -/
theorem c1_ranker_sorted_and_truncated (dist : ℚ × ℚ → ℚ × ℚ → ℚ) (user : ℚ × ℚ)
    (records : List VehicleRecord) :
    (rank dist user records).Sorted byDistance
    ∧ (rank dist user records).length = min 30 records.length := by
  constructor
  · exact (List.sorted_insertionSort byDistance _).sublist (List.take_sublist 30 _)
  · simp [rank]

/-- Claim C4: the Fetcher dispatches exactly one request per unique
non-null identifier of the input column: the dispatched request list is
VIN_LIST, which has no duplicates and contains exactly the values that
occur non-null in the column. -/
theorem c4_one_request_per_unique_identifier (pf : String → Option ℚ)
    (dist : ℚ × ℚ → ℚ × ℚ → ℚ) (user : ℚ × ℚ) (tbl : InputTable)
    (respOf : String → FetchResponse) (h : "vehicleId" ∈ tbl.cols) :
    (runPipeline pf dist (some user) (some tbl) respOf).requests =
      VIN_LIST (tbl.data "vehicleId")
    ∧ (VIN_LIST (tbl.data "vehicleId")).Nodup
    ∧ ∀ x : String, x ∈ VIN_LIST (tbl.data "vehicleId") ↔ some x ∈ tbl.data "vehicleId" := by
  refine ⟨?_, nodup_VIN_LIST _, fun x => mem_VIN_LIST⟩
  simp only [runPipeline, if_pos h]
  split <;> rfl

/-- Claim C4 witness: a concrete input with a duplicate and a null. -/
theorem c4_witness :
    "vehicleId" ∈ (⟨["vehicleId"], fun _ => [some "V1", none, some "V2", some "V1"]⟩ :
        InputTable).cols
    ∧ ((runPipeline pyFloat (fun _ _ => 0) (some (0, 0))
          (some ⟨["vehicleId"], fun _ => [some "V1", none, some "V2", some "V1"]⟩)
          (fun _ => FetchResponse.netError)).requests =
        VIN_LIST ((⟨["vehicleId"], fun _ => [some "V1", none, some "V2", some "V1"]⟩ :
          InputTable).data "vehicleId")
      ∧ (VIN_LIST ((⟨["vehicleId"], fun _ => [some "V1", none, some "V2", some "V1"]⟩ :
          InputTable).data "vehicleId")).Nodup
      ∧ ∀ x : String,
          x ∈ VIN_LIST ((⟨["vehicleId"], fun _ => [some "V1", none, some "V2", some "V1"]⟩ :
            InputTable).data "vehicleId")
          ↔ some x ∈ (⟨["vehicleId"], fun _ => [some "V1", none, some "V2", some "V1"]⟩ :
            InputTable).data "vehicleId") :=
  ⟨by decide,
    c4_one_request_per_unique_identifier pyFloat (fun _ _ => 0) (0, 0)
      ⟨["vehicleId"], fun _ => [some "V1", none, some "V2", some "V1"]⟩
      (fun _ => FetchResponse.netError) (by decide)⟩

/-- Claim C6: when the required "vehicleId" column is absent the run stops
with the input error and no network request is dispatched. -/
theorem c6_missing_column_input_error (pf : String → Option ℚ)
    (dist : ℚ × ℚ → ℚ × ℚ → ℚ) (user : ℚ × ℚ) (tbl : InputTable)
    (respOf : String → FetchResponse) (h : "vehicleId" ∉ tbl.cols) :
    (runPipeline pf dist (some user) (some tbl) respOf).outcome = Outcome.inputError
    ∧ (runPipeline pf dist (some user) (some tbl) respOf).requests = [] := by
  rw [runPipeline]
  simp [h]

/-- Claim C6 witness: a file whose only column is "vehicle_id". -/
theorem c6_witness :
    "vehicleId" ∉ (⟨["vehicle_id"], fun _ => [some "V1"]⟩ : InputTable).cols
    ∧ ((runPipeline pyFloat (fun _ _ => 0) (some (0, 0))
          (some ⟨["vehicle_id"], fun _ => [some "V1"]⟩)
          (fun _ => FetchResponse.netError)).outcome = Outcome.inputError
      ∧ (runPipeline pyFloat (fun _ _ => 0) (some (0, 0))
          (some ⟨["vehicle_id"], fun _ => [some "V1"]⟩)
          (fun _ => FetchResponse.netError)).requests = []) :=
  ⟨by decide,
    c6_missing_column_input_error pyFloat (fun _ _ => 0) (0, 0)
      ⟨["vehicle_id"], fun _ => [some "V1"]⟩ (fun _ => FetchResponse.netError) (by decide)⟩

/-- Claim C7: when every dispatched fetch yields no record, the run stops
with the single empty-result error and nothing is rendered. -/
theorem c7_all_fetches_fail_empty_result_set (pf : String → Option ℚ)
    (dist : ℚ × ℚ → ℚ × ℚ → ℚ) (user : ℚ × ℚ) (tbl : InputTable)
    (respOf : String → FetchResponse)
    (hcol : "vehicleId" ∈ tbl.cols)
    (hfail : ∀ v ∈ VIN_LIST (tbl.data "vehicleId"), fetch_live pf v (respOf v) = none) :
    (runPipeline pf dist (some user) (some tbl) respOf).outcome = Outcome.emptyResultSet
    ∧ ∀ top, (runPipeline pf dist (some user) (some tbl) respOf).outcome ≠
        Outcome.rendered top := by
  have hres : collectResults pf (VIN_LIST (tbl.data "vehicleId")) respOf = [] :=
    List.filterMap_eq_nil_iff.mpr hfail
  constructor
  · rw [runPipeline]
    simp [hcol, hres]
  · intro top
    rw [runPipeline]
    simp [hcol, hres]

/-- Claim C7 witness: one identifier whose request raises a network
error. -/
theorem c7_witness :
    ("vehicleId" ∈ (⟨["vehicleId"], fun _ => [some "V1"]⟩ : InputTable).cols
      ∧ ∀ v ∈ VIN_LIST ((⟨["vehicleId"], fun _ => [some "V1"]⟩ : InputTable).data "vehicleId"),
          fetch_live pyFloat v ((fun _ => FetchResponse.netError) v) = none)
    ∧ ((runPipeline pyFloat (fun _ _ => 0) (some (0, 0))
          (some ⟨["vehicleId"], fun _ => [some "V1"]⟩)
          (fun _ => FetchResponse.netError)).outcome = Outcome.emptyResultSet
      ∧ ∀ top, (runPipeline pyFloat (fun _ _ => 0) (some (0, 0))
          (some ⟨["vehicleId"], fun _ => [some "V1"]⟩)
          (fun _ => FetchResponse.netError)).outcome ≠ Outcome.rendered top) :=
  ⟨⟨by decide, by decide⟩,
    c7_all_fetches_fail_empty_result_set pyFloat (fun _ _ => 0) (0, 0)
      ⟨["vehicleId"], fun _ => [some "V1"]⟩ (fun _ => FetchResponse.netError)
      (by decide) (by decide)⟩

/-- Claim C2: a fetch whose response has a non-2xx status, a malformed JSON
body, or a non-numeric location component produces no record, and the run's
accumulated results are exactly those of the other identifiers (the failing
identifier is silently dropped, nothing propagates). -/
theorem c2_fetch_failure_silently_dropped (pf : String → Option ℚ) (vin : String)
    (resp : FetchResponse)
    (h : non2xxStatus resp = true ∨ malformedJsonBody resp = true ∨
      nonNumericLocation pf resp = true) :
    fetch_live pf vin resp = none
    ∧ ∀ (pre post : List String) (respOf : String → FetchResponse), respOf vin = resp →
        collectResults pf (pre ++ vin :: post) respOf = collectResults pf (pre ++ post) respOf := by
  have hnone : fetch_live pf vin resp = none := by
    cases resp with
    | netError => rfl
    | ok s body =>
      rcases h with h | h | h
      · have hs : s ≠ 200 := by
          simp [non2xxStatus] at h
          omega
        simp [fetch_live, hs]
      · cases body with
        | none => by_cases hs : s = 200 <;> simp [fetch_live, hs]
        | some d => simp [malformedJsonBody] at h
      · by_cases hs : s = 200
        · subst hs
          cases body with
          | none => simp [fetch_live]
          | some d =>
            cases hloc : d.location with
            | none => simp [nonNumericLocation, hloc] at h
            | some locStr =>
              rw [nonNumericLocation, hloc] at h
              rw [List.any_eq_true] at h
              obtain ⟨c, hc, hcn⟩ := h
              rw [Option.isNone_iff_eq_none] at hcn
              match hsp : splitComma locStr with
              | [] => simp [fetch_live, hloc, hsp]
              | [s1] => simp [fetch_live, hloc, hsp]
              | s1 :: s2 :: s3 :: rest => simp [fetch_live, hloc, hsp]
              | [s1, s2] =>
                rw [hsp] at hc
                rcases List.mem_cons.mp hc with rfl | hc2
                · simp [fetch_live, hloc, hsp, hcn]
                · rcases List.mem_cons.mp hc2 with rfl | hc3
                  · cases hp1 : pf s1 <;> simp [fetch_live, hloc, hsp, hp1, hcn]
                  · simp at hc3
        · simp [fetch_live, hs]
  refine ⟨hnone, fun pre post respOf hr => ?_⟩
  simp only [collectResults, List.filterMap_append, List.filterMap_cons, hr, hnone]

/-- Claim C2 witness: a 404 response for V2 between two successful
identifiers changes nothing but V2's absence. -/
theorem c2_witness :
    (non2xxStatus (FetchResponse.ok 404 (some ⟨some "1.5,2.5", none, none⟩)) = true
      ∨ malformedJsonBody (FetchResponse.ok 404 (some ⟨some "1.5,2.5", none, none⟩)) = true
      ∨ nonNumericLocation pyFloat (FetchResponse.ok 404 (some ⟨some "1.5,2.5", none, none⟩)) =
          true)
    ∧ (fetch_live pyFloat "V2" (FetchResponse.ok 404 (some ⟨some "1.5,2.5", none, none⟩)) = none
      ∧ ∀ (pre post : List String) (respOf : String → FetchResponse),
          respOf "V2" = FetchResponse.ok 404 (some ⟨some "1.5,2.5", none, none⟩) →
          collectResults pyFloat (pre ++ "V2" :: post) respOf =
            collectResults pyFloat (pre ++ post) respOf) :=
  ⟨by decide,
    c2_fetch_failure_silently_dropped pyFloat "V2"
      (FetchResponse.ok 404 (some ⟨some "1.5,2.5", none, none⟩)) (by decide)⟩

/-- Claim C5 counterexample: the claim speaks of every successful 2xx
response, but the code accepts only status 200; status 201 with a
well-formed "lat,lon" body produces no record at all, so its latitude and
longitude in particular do not equal the parsed floats. -/
theorem c5_counterexample :
    (200 ≤ 201 ∧ 201 < 300)
    ∧ splitComma "1.5,2.5" = ["1.5", "2.5"]
    ∧ pyFloat "1.5" = some (Rat.divInt 3 2)
    ∧ pyFloat "2.5" = some (Rat.divInt 5 2)
    ∧ fetch_live pyFloat "V1"
        (FetchResponse.ok 201 (some ⟨some "1.5,2.5", none, none⟩)) = none := by decide

/-- Claim C5 amended: for a response with status exactly 200 whose JSON
body has a "lat,lon" string splitting into two parseable components, the
produced record's latitude is the first parsed float and its longitude the
second, with battery and last-updated passed through. -/
theorem c5_status200_record_equals_parsed_floats (pf : String → Option ℚ) (vin : String)
    (d : JsonBody) (locStr s1 s2 : String) (lat lon : ℚ)
    (hloc : d.location = some locStr) (hsplit : splitComma locStr = [s1, s2])
    (h1 : pf s1 = some lat) (h2 : pf s2 = some lon) :
    fetch_live pf vin (FetchResponse.ok 200 (some d)) =
      some ⟨vin, lat, lon, d.batteryCharge, d.lastUpdated⟩ := by
  simp [fetch_live, hloc, hsplit, h1, h2]

/-- Claim C5 witness: concrete successful parse. -/
theorem c5_witness :
    ((⟨some "1.5,2.5", some 80, some "now"⟩ : JsonBody).location = some "1.5,2.5"
      ∧ splitComma "1.5,2.5" = ["1.5", "2.5"]
      ∧ pyFloat "1.5" = some (Rat.divInt 3 2)
      ∧ pyFloat "2.5" = some (Rat.divInt 5 2))
    ∧ fetch_live pyFloat "V1"
        (FetchResponse.ok 200 (some ⟨some "1.5,2.5", some 80, some "now"⟩)) =
        some ⟨"V1", Rat.divInt 3 2, Rat.divInt 5 2,
          (⟨some "1.5,2.5", some 80, some "now"⟩ : JsonBody).batteryCharge,
          (⟨some "1.5,2.5", some 80, some "now"⟩ : JsonBody).lastUpdated⟩ :=
  ⟨⟨rfl, by decide, by decide, by decide⟩,
    c5_status200_record_equals_parsed_floats pyFloat "V1"
      ⟨some "1.5,2.5", some 80, some "now"⟩ "1.5,2.5" "1.5" "2.5"
      (Rat.divInt 3 2) (Rat.divInt 5 2) rfl (by decide) (by decide) (by decide)⟩

/-- Claim C9 counterexample: the claim says no record in the result set has
a null batteryLevel or lastUpdated field, but both are dict.get
passthroughs; a 200 response whose body lacks them yields a record with
both fields null inside the result set. -/
theorem c9_counterexample :
    ∃ r ∈ collectResults pyFloat ["V1"]
        (fun _ => FetchResponse.ok 200 (some ⟨some "1.5,2.5", none, none⟩)),
      r.Battery = none ∧ r.LastUpdated = none := by decide

/-- Claim C9 amended: every record in the result set comes from a
successful parse: its VIN is the fetched identifier and its latitude and
longitude are the two floats parsed from the location string of a
status-200 JSON response, so identifier and coordinates are never null or
missing; battery and last-updated are passthrough fields that may be
null. -/
theorem c9_result_records_fully_parsed (pf : String → Option ℚ)
    (vins : List String) (respOf : String → FetchResponse) (r : VehicleRecord)
    (h : r ∈ collectResults pf vins respOf) :
    ∃ v ∈ vins, r.VIN = v ∧ ∃ d locStr s1 s2,
      respOf v = FetchResponse.ok 200 (some d)
      ∧ d.location = some locStr
      ∧ splitComma locStr = [s1, s2]
      ∧ pf s1 = some r.Latitude ∧ pf s2 = some r.Longitude
      ∧ r.Battery = d.batteryCharge ∧ r.LastUpdated = d.lastUpdated := by
  rw [collectResults, List.mem_filterMap] at h
  obtain ⟨v, hv, hf⟩ := h
  refine ⟨v, hv, ?_⟩
  cases hresp : respOf v with
  | netError => rw [hresp] at hf; simp [fetch_live] at hf
  | ok s body =>
    rw [hresp] at hf
    by_cases hs : s = 200
    · subst hs
      cases body with
      | none => simp [fetch_live] at hf
      | some d =>
        cases hloc : d.location with
        | none => simp [fetch_live, hloc] at hf
        | some locStr =>
          match hsp : splitComma locStr with
          | [] => simp [fetch_live, hloc, hsp] at hf
          | [s1] => simp [fetch_live, hloc, hsp] at hf
          | s1 :: s2 :: s3 :: rest => simp [fetch_live, hloc, hsp] at hf
          | [s1, s2] =>
            cases hp1 : pf s1 with
            | none => simp [fetch_live, hloc, hsp, hp1] at hf
            | some lat =>
              cases hp2 : pf s2 with
              | none => simp [fetch_live, hloc, hsp, hp1, hp2] at hf
              | some lon =>
                have hr : r = ⟨v, lat, lon, d.batteryCharge, d.lastUpdated⟩ := by
                  simp [fetch_live, hloc, hsp, hp1, hp2] at hf
                  exact hf.symm
                subst hr
                exact ⟨rfl, d, locStr, s1, s2, rfl, hloc, hsp, hp1, hp2, rfl, rfl⟩
    · simp [fetch_live, hs] at hf

/-- Claim C9 amended witness: the single record of a concrete run is fully
parsed. -/
theorem c9_witness :
    (⟨"V1", Rat.divInt 3 2, Rat.divInt 5 2, none, none⟩ : VehicleRecord) ∈
      collectResults pyFloat ["V1"]
        (fun _ => FetchResponse.ok 200 (some ⟨some "1.5,2.5", none, none⟩))
    ∧ ∃ v ∈ ["V1"],
        (⟨"V1", Rat.divInt 3 2, Rat.divInt 5 2, none, none⟩ : VehicleRecord).VIN = v
        ∧ ∃ d locStr s1 s2,
          (fun _ : String => FetchResponse.ok 200 (some ⟨some "1.5,2.5", none, none⟩)) v =
            FetchResponse.ok 200 (some d)
          ∧ d.location = some locStr
          ∧ splitComma locStr = [s1, s2]
          ∧ pyFloat s1 =
              some (⟨"V1", Rat.divInt 3 2, Rat.divInt 5 2, none, none⟩ : VehicleRecord).Latitude
          ∧ pyFloat s2 =
              some (⟨"V1", Rat.divInt 3 2, Rat.divInt 5 2, none, none⟩ : VehicleRecord).Longitude
          ∧ (⟨"V1", Rat.divInt 3 2, Rat.divInt 5 2, none, none⟩ : VehicleRecord).Battery =
              d.batteryCharge
          ∧ (⟨"V1", Rat.divInt 3 2, Rat.divInt 5 2, none, none⟩ : VehicleRecord).LastUpdated =
              d.lastUpdated :=
  ⟨by decide,
    c9_result_records_fully_parsed pyFloat ["V1"]
      (fun _ => FetchResponse.ok 200 (some ⟨some "1.5,2.5", none, none⟩))
      ⟨"V1", Rat.divInt 3 2, Rat.divInt 5 2, none, none⟩ (by decide)⟩

/-- Claim C10: a 200 response whose location string splits on commas into a
number of components other than two yields no record, even when every
component parses as a float (the two-variable unpack fails and the task is
discarded); for non-200 statuses the fetch yields no record anyway. -/
theorem c10_wrong_arity_location_discarded (pf : String → Option ℚ) (vin : String)
    (s : Nat) (d : JsonBody) (locStr : String)
    (hloc : d.location = some locStr)
    (hlen : (splitComma locStr).length ≠ 2)
    (_hnum : ∀ c ∈ splitComma locStr, (pf c).isSome = true) :
    fetch_live pf vin (FetchResponse.ok s (some d)) = none := by
  by_cases hs : s = 200
  · subst hs
    match hsp : splitComma locStr with
    | [] => simp [fetch_live, hloc, hsp]
    | [s1] => simp [fetch_live, hloc, hsp]
    | [s1, s2] => rw [hsp] at hlen; simp at hlen
    | s1 :: s2 :: s3 :: rest => simp [fetch_live, hloc, hsp]
  · simp [fetch_live, hs]

/-- Claim C10 witness: three numeric components. -/
theorem c10_witness :
    ((⟨some "1.5,2.5,3.5", none, none⟩ : JsonBody).location = some "1.5,2.5,3.5"
      ∧ (splitComma "1.5,2.5,3.5").length ≠ 2
      ∧ ∀ c ∈ splitComma "1.5,2.5,3.5", (pyFloat c).isSome = true)
    ∧ fetch_live pyFloat "V1"
        (FetchResponse.ok 200 (some ⟨some "1.5,2.5,3.5", none, none⟩)) = none :=
  ⟨⟨rfl, by decide, by decide⟩,
    c10_wrong_arity_location_discarded pyFloat "V1" 200
      ⟨some "1.5,2.5,3.5", none, none⟩ "1.5,2.5,3.5" rfl (by decide) (by decide)⟩
